import Mathlib

/-!
Shallow embedding of the airline seat-inventory and booking core from
`src/problems/airline-management-system.go`, together with theorems that
settle the specification claims about it.

Go's `time.Time` is modelled by `GoTime`, keeping exactly the components the
code inspects (`Year()`, `Month()`, `Day()`) plus a time-of-day remainder so
that equal calendar dates do not force equal instants.  Go slices of pointers
are modelled by Lean lists of values with explicit state passing: a Go method
that mutates its receiver becomes a Lean function returning the new value.
-/

/-- Model of Go `time.Time` restricted to what the code reads: calendar
components and an abstract remainder (time of day, zone, ...). -/
structure GoTime where
  year : Int
  month : Int
  day : Int
  rest : Nat
deriving DecidableEq, Repr

/-- Source `type Aircraft struct { TailNumber, Model string; TotalSeats int }`.
`TotalSeats` is a `Nat`: `NewFlight` runs `make([]*Seat, TotalSeats)`, which
panics for a negative count, so only non-negative counts yield a Flight. -/
structure Aircraft where
  tailNumber : String
  model : String
  totalSeats : Nat
deriving DecidableEq, Repr

/-- Source `func NewAircraft(tailNumber, model string, totalSeats int) *Aircraft`. -/
def NewAircraft (tailNumber model : String) (totalSeats : Nat) : Aircraft :=
  ⟨tailNumber, model, totalSeats⟩

/-- Source `type Seat struct { SeatNumber int; IsBooked bool }`. -/
structure Seat where
  seatNumber : Int
  isBooked : Bool
deriving DecidableEq, Repr

/-- Source `type Flight struct { ... Seats []*Seat }`. -/
structure Flight where
  flightNumber : String
  source : String
  destination : String
  departure : GoTime
  arrival : GoTime
  aircraft : Aircraft
  seats : List Seat
deriving DecidableEq, Repr

/-- The seat table built by `NewFlight`'s loop:
`for i := 0; i < aircraft.TotalSeats; i++ { seats[i] = &Seat{SeatNumber: i+1, IsBooked: false} }`. -/
def mkSeatTable (n : Nat) : List Seat :=
  (List.range n).map (fun i : Nat => ⟨(i : Int) + 1, false⟩)

/-- Source `func NewFlight(flightNumber, source, destination string, departure, arrival time.Time, aircraft *Aircraft) *Flight`. -/
def NewFlight (flightNumber source destination : String) (departure arrival : GoTime)
    (aircraft : Aircraft) : Flight :=
  ⟨flightNumber, source, destination, departure, arrival, aircraft,
    mkSeatTable aircraft.totalSeats⟩

/-- Source `func (f *Flight) BookSeat(seatNumber int) bool`:

```
if seatNumber < 1 || seatNumber > len(f.Seats) { return false }
if f.Seats[seatNumber-1].IsBooked { return false }
f.Seats[seatNumber-1].IsBooked = true
return true
```

The mutation of the receiver is made explicit: the result pairs the updated
Flight with the returned Bool.  The `none` arm of the lookup is unreachable
because the range check has already ensured the index is in bounds. -/
def Flight.BookSeat (f : Flight) (seatNumber : Int) : Flight × Bool :=
  if seatNumber < 1 ∨ seatNumber > (f.seats.length : Int) then (f, false)
  else
    match f.seats.get? (seatNumber - 1).toNat with
    | none => (f, false)
    | some seat =>
      if seat.isBooked then (f, false)
      else
        (⟨f.flightNumber, f.source, f.destination, f.departure, f.arrival, f.aircraft,
          f.seats.set (seatNumber - 1).toNat ⟨seat.seatNumber, true⟩⟩, true)

/-- The booked flag of the seat numbered `s` (1-based), as `Flight.BookSeat`
addresses it: `f.Seats[s-1].IsBooked`; `none` if no such seat exists. -/
def Flight.seatBooked (f : Flight) (s : Int) : Option Bool :=
  (f.seats.get? (s - 1).toNat).map Seat.isBooked

/-- A sequence of `BookSeat` calls on one Flight, applied in order; each call's
Bool result is discarded and the mutated Flight is threaded through. -/
def applyBookings (f : Flight) (ops : List Int) : Flight :=
  ops.foldl (fun g s => (g.BookSeat s).fst) f

/-! ### Basic lemmas about `Flight.BookSeat` -/

/-- Exhaustive case analysis of `Flight.BookSeat`: out-of-range failure,
already-booked failure, or successful booking. -/
theorem Flight.BookSeat_spec_cases (f : Flight) (s : Int) :
    (¬(1 ≤ s ∧ s ≤ (f.seats.length : Int)) ∧ f.BookSeat s = (f, false))
    ∨ ((1 ≤ s ∧ s ≤ (f.seats.length : Int)) ∧
        ∃ seat, f.seats.get? (s - 1).toNat = some seat ∧ seat.isBooked = true
          ∧ f.BookSeat s = (f, false))
    ∨ ((1 ≤ s ∧ s ≤ (f.seats.length : Int)) ∧
        ∃ seat, f.seats.get? (s - 1).toNat = some seat ∧ seat.isBooked = false
          ∧ f.BookSeat s =
            (⟨f.flightNumber, f.source, f.destination, f.departure, f.arrival, f.aircraft,
              f.seats.set (s - 1).toNat ⟨seat.seatNumber, true⟩⟩, true)) := by
  unfold Flight.BookSeat
  split
  · rename_i hrange
    exact Or.inl ⟨by omega, rfl⟩
  · rename_i hrange
    split
    · rename_i hnone
      exfalso
      have hlen := List.get?_eq_none.mp hnone
      omega
    · rename_i seat hsome
      split
      · rename_i hb
        exact Or.inr (Or.inl ⟨by omega, seat, hsome, hb, rfl⟩)
      · rename_i hb
        exact Or.inr (Or.inr ⟨by omega, seat, hsome, by simpa using hb, rfl⟩)

theorem Flight.BookSeat_snd_true_iff (f : Flight) (s : Int) :
    (f.BookSeat s).snd = true ↔
      1 ≤ s ∧ s ≤ (f.seats.length : Int) ∧ f.seatBooked s = some false := by
  rcases Flight.BookSeat_spec_cases f s with ⟨hr, he⟩ |
    ⟨hr, seat, hsome, hb, he⟩ | ⟨hr, seat, hsome, hb, he⟩
  · rw [he]
    constructor
    · intro h
      simp at h
    · rintro ⟨h1, h2, -⟩
      exact absurd ⟨h1, h2⟩ hr
  · rw [he]
    constructor
    · intro h
      simp at h
    · rintro ⟨-, -, hbk⟩
      unfold Flight.seatBooked at hbk
      rw [hsome] at hbk
      simp [hb] at hbk
  · constructor
    · intro _
      refine ⟨hr.1, hr.2, ?_⟩
      unfold Flight.seatBooked
      rw [hsome]
      show some seat.isBooked = some false
      rw [hb]
    · intro _
      rw [he]

theorem Flight.BookSeat_false_frame (f : Flight) (s : Int)
    (h : (f.BookSeat s).snd = false) : (f.BookSeat s).fst = f := by
  rcases Flight.BookSeat_spec_cases f s with ⟨-, he⟩ |
    ⟨-, seat, -, -, he⟩ | ⟨-, seat, -, -, he⟩
  · rw [he]
  · rw [he]
  · rw [he] at h
    simp at h

theorem Flight.BookSeat_true_books (f : Flight) (s : Int)
    (h : (f.BookSeat s).snd = true) :
    (f.BookSeat s).fst.seatBooked s = some true := by
  rcases Flight.BookSeat_spec_cases f s with ⟨-, he⟩ |
    ⟨-, seat, -, -, he⟩ | ⟨hr, seat, hsome, hb, he⟩
  · rw [he] at h
    simp at h
  · rw [he] at h
    simp at h
  · rw [he]
    have hlen : (s - 1).toNat < f.seats.length := by omega
    show ((f.seats.set (s - 1).toNat ⟨seat.seatNumber, true⟩).get? (s - 1).toNat).map
        Seat.isBooked = some true
    rw [List.get?_set_eq_of_lt _ hlen]
    rfl

theorem Flight.BookSeat_seats_length (f : Flight) (s : Int) :
    (f.BookSeat s).fst.seats.length = f.seats.length := by
  rcases Flight.BookSeat_spec_cases f s with ⟨-, he⟩ |
    ⟨-, seat, -, -, he⟩ | ⟨-, seat, -, -, he⟩ <;> rw [he]
  simp [List.length_set]

theorem Flight.BookSeat_seatNumbers (f : Flight) (s : Int) (i : Nat) :
    ((f.BookSeat s).fst.seats.get? i).map Seat.seatNumber
      = (f.seats.get? i).map Seat.seatNumber := by
  rcases Flight.BookSeat_spec_cases f s with ⟨-, he⟩ |
    ⟨-, seat, -, -, he⟩ | ⟨hr, seat, hsome, hb, he⟩ <;> rw [he]
  by_cases hi : i = (s - 1).toNat
  · have hlen : (s - 1).toNat < f.seats.length := by omega
    rw [hi]
    show ((f.seats.set (s - 1).toNat ⟨seat.seatNumber, true⟩).get? (s - 1).toNat).map
        Seat.seatNumber = (f.seats.get? (s - 1).toNat).map Seat.seatNumber
    rw [List.get?_set_eq_of_lt _ hlen, hsome]
    rfl
  · show ((f.seats.set (s - 1).toNat ⟨seat.seatNumber, true⟩).get? i).map Seat.seatNumber
        = (f.seats.get? i).map Seat.seatNumber
    rw [List.get?_set_ne _ _ (Ne.symm hi)]

theorem Flight.BookSeat_mono (f : Flight) (s : Int) (i : Nat)
    (h : (f.seats.get? i).map Seat.isBooked = some true) :
    ((f.BookSeat s).fst.seats.get? i).map Seat.isBooked = some true := by
  rcases Flight.BookSeat_spec_cases f s with ⟨-, he⟩ |
    ⟨-, seat, -, -, he⟩ | ⟨hr, seat, hsome, hb, he⟩ <;> rw [he]
  · exact h
  · exact h
  · by_cases hi : i = (s - 1).toNat
    · subst hi
      rw [hsome] at h
      simp [hb] at h
    · show ((f.seats.set (s - 1).toNat ⟨seat.seatNumber, true⟩).get? i).map Seat.isBooked
          = some true
      rw [List.get?_set_ne _ _ (Ne.symm hi)]
      exact h

theorem Flight.BookSeat_frame_other (f : Flight) (s : Int) (i : Nat)
    (hi : i ≠ (s - 1).toNat) :
    (f.BookSeat s).fst.seats.get? i = f.seats.get? i := by
  rcases Flight.BookSeat_spec_cases f s with ⟨-, he⟩ |
    ⟨-, seat, -, -, he⟩ | ⟨-, seat, -, -, he⟩ <;> rw [he]
  show (f.seats.set (s - 1).toNat ⟨seat.seatNumber, true⟩).get? i = f.seats.get? i
  rw [List.get?_set_ne _ _ (Ne.symm hi)]

theorem Flight.BookSeat_metadata (f : Flight) (s : Int) :
    (f.BookSeat s).fst.flightNumber = f.flightNumber
    ∧ (f.BookSeat s).fst.source = f.source
    ∧ (f.BookSeat s).fst.destination = f.destination
    ∧ (f.BookSeat s).fst.departure = f.departure
    ∧ (f.BookSeat s).fst.arrival = f.arrival
    ∧ (f.BookSeat s).fst.aircraft = f.aircraft := by
  rcases Flight.BookSeat_spec_cases f s with ⟨-, he⟩ |
    ⟨-, seat, -, -, he⟩ | ⟨-, seat, -, -, he⟩ <;> rw [he] <;>
    exact ⟨rfl, rfl, rfl, rfl, rfl, rfl⟩

/-! ### Lemmas about sequences of bookings -/

theorem applyBookings_append (f : Flight) (a b : List Int) :
    applyBookings f (a ++ b) = applyBookings (applyBookings f a) b := by
  simp [applyBookings, List.foldl_append]

theorem applyBookings_seats_length (f : Flight) (ops : List Int) :
    (applyBookings f ops).seats.length = f.seats.length := by
  induction ops generalizing f with
  | nil => rfl
  | cons s rest ih =>
    simp only [applyBookings, List.foldl_cons]
    rw [show List.foldl (fun g s => (g.BookSeat s).fst) (f.BookSeat s).fst rest
        = applyBookings (f.BookSeat s).fst rest from rfl, ih,
      Flight.BookSeat_seats_length]

theorem applyBookings_seatNumbers (f : Flight) (ops : List Int) (i : Nat) :
    ((applyBookings f ops).seats.get? i).map Seat.seatNumber
      = (f.seats.get? i).map Seat.seatNumber := by
  induction ops generalizing f with
  | nil => rfl
  | cons s rest ih =>
    simp only [applyBookings, List.foldl_cons]
    rw [show List.foldl (fun g s => (g.BookSeat s).fst) (f.BookSeat s).fst rest
        = applyBookings (f.BookSeat s).fst rest from rfl, ih,
      Flight.BookSeat_seatNumbers]

theorem applyBookings_mono (f : Flight) (ops : List Int) (i : Nat)
    (h : (f.seats.get? i).map Seat.isBooked = some true) :
    ((applyBookings f ops).seats.get? i).map Seat.isBooked = some true := by
  induction ops generalizing f with
  | nil => exact h
  | cons s rest ih =>
    simp only [applyBookings, List.foldl_cons]
    exact ih _ (Flight.BookSeat_mono f s i h)

/-! ### The freshly constructed seat table -/

theorem mkSeatTable_length (n : Nat) : (mkSeatTable n).length = n := by
  unfold mkSeatTable
  rw [List.length_map, List.length_range]

theorem mkSeatTable_get? (n i : Nat) (h : i < n) :
    (mkSeatTable n).get? i = some ⟨(i : Int) + 1, false⟩ := by
  unfold mkSeatTable
  rw [List.get?_map, List.get?_range h]
  rfl

theorem applyBookings_NewFlight_length (fn src dst : String) (dep arr : GoTime)
    (ac : Aircraft) (ops : List Int) :
    (applyBookings (NewFlight fn src dst dep arr ac) ops).seats.length = ac.totalSeats := by
  rw [applyBookings_seats_length]
  exact mkSeatTable_length _

/-! ### Concrete sample data (used by witnesses) -/

def sampleDeparture : GoTime := ⟨2024, 1, 1, 8⟩

def sampleArrival : GoTime := ⟨2024, 1, 1, 16⟩

def sampleAircraft : Aircraft := NewAircraft "N1" "B737" 2

def sampleFlight : Flight :=
  NewFlight "AA1" "SFO" "JFK" sampleDeparture sampleArrival sampleAircraft

/-! ### Claim theorems about seat reservation -/

/-- C2: for every reachable Flight (freshly constructed and then subjected to any
sequence of bookings) and every integer seat number, `BookSeat` returns `true` iff
the seat number lies in `[1, totalSeats]` and that seat's booked flag is `false`;
on success the flag becomes `true`; on failure the Flight is unchanged. -/
theorem ReserveSeat_contract (fn src dst : String) (dep arr : GoTime) (ac : Aircraft)
    (ops : List Int) (s : Int) :
    (((applyBookings (NewFlight fn src dst dep arr ac) ops).BookSeat s).snd = true ↔
        1 ≤ s ∧ s ≤ (ac.totalSeats : Int)
          ∧ (applyBookings (NewFlight fn src dst dep arr ac) ops).seatBooked s = some false)
    ∧ (((applyBookings (NewFlight fn src dst dep arr ac) ops).BookSeat s).snd = true →
        ((applyBookings (NewFlight fn src dst dep arr ac) ops).BookSeat s).fst.seatBooked s
          = some true)
    ∧ (((applyBookings (NewFlight fn src dst dep arr ac) ops).BookSeat s).snd = false →
        ((applyBookings (NewFlight fn src dst dep arr ac) ops).BookSeat s).fst
          = applyBookings (NewFlight fn src dst dep arr ac) ops) := by
  refine ⟨?_, Flight.BookSeat_true_books _ s, Flight.BookSeat_false_frame _ s⟩
  rw [Flight.BookSeat_snd_true_iff, applyBookings_NewFlight_length]

/-- C4: after construction the seats are exactly the dense integers
`1..totalSeats`, all unbooked; no sequence of bookings adds, removes or renumbers
a seat, and a booked flag never reverts from `true` to `false`. -/
theorem SeatTable_dense_and_monotone (fn src dst : String) (dep arr : GoTime)
    (ac : Aircraft) (ops more : List Int) (i : Nat) :
    (NewFlight fn src dst dep arr ac).seats.length = ac.totalSeats
    ∧ (i < ac.totalSeats →
        (NewFlight fn src dst dep arr ac).seats.get? i = some ⟨(i : Int) + 1, false⟩)
    ∧ (applyBookings (NewFlight fn src dst dep arr ac) ops).seats.length = ac.totalSeats
    ∧ ((applyBookings (NewFlight fn src dst dep arr ac) ops).seats.get? i).map Seat.seatNumber
        = ((NewFlight fn src dst dep arr ac).seats.get? i).map Seat.seatNumber
    ∧ (((applyBookings (NewFlight fn src dst dep arr ac) ops).seats.get? i).map Seat.isBooked
          = some true →
        ((applyBookings (NewFlight fn src dst dep arr ac) (ops ++ more)).seats.get? i).map
            Seat.isBooked = some true) := by
  refine ⟨mkSeatTable_length _, fun h => mkSeatTable_get? _ i h,
    applyBookings_NewFlight_length fn src dst dep arr ac ops,
    applyBookings_seatNumbers _ ops i, fun h => ?_⟩
  rw [applyBookings_append]
  exact applyBookings_mono _ more i h

/-- C5: on an in-range, currently unbooked seat, two successive `BookSeat` calls
yield `true` then `false`; and once a seat is booked, every later `BookSeat` call
on it (after any further sequence of bookings) returns `false`. -/
theorem ReserveSeat_twice (f : Flight) (s : Int) (later : List Int)
    (h1 : 1 ≤ s) (h2 : s ≤ (f.seats.length : Int)) :
    (f.seatBooked s = some false →
        (f.BookSeat s).snd = true ∧ ((f.BookSeat s).fst.BookSeat s).snd = false)
    ∧ (f.seatBooked s = some true →
        ((applyBookings f later).BookSeat s).snd = false) := by
  constructor
  · intro hfree
    have ht : (f.BookSeat s).snd = true :=
      (Flight.BookSeat_snd_true_iff f s).mpr ⟨h1, h2, hfree⟩
    refine ⟨ht, ?_⟩
    have hbooked : (f.BookSeat s).fst.seatBooked s = some true :=
      Flight.BookSeat_true_books f s ht
    by_contra hne
    have hT : ((f.BookSeat s).fst.BookSeat s).snd = true := by
      simpa using hne
    have hcontra := ((Flight.BookSeat_snd_true_iff _ s).mp hT).2.2
    rw [hbooked] at hcontra
    simp at hcontra
  · intro hbooked
    have hb2 : (applyBookings f later).seatBooked s = some true :=
      applyBookings_mono f later _ hbooked
    by_contra hne
    have hT : ((applyBookings f later).BookSeat s).snd = true := by
      simpa using hne
    have hcontra := ((Flight.BookSeat_snd_true_iff _ s).mp hT).2.2
    rw [hb2] at hcontra
    simp at hcontra

/-- Witness for C5 at a concrete flight: seat 1 of a fresh two-seat flight. -/
theorem ReserveSeat_twice_witness :
    (1 : Int) ≤ 1 ∧ (1 : Int) ≤ (sampleFlight.seats.length : Int)
    ∧ ((sampleFlight.seatBooked 1 = some false →
          (sampleFlight.BookSeat 1).snd = true
            ∧ ((sampleFlight.BookSeat 1).fst.BookSeat 1).snd = false)
        ∧ (sampleFlight.seatBooked 1 = some true →
          ((applyBookings sampleFlight [2]).BookSeat 1).snd = false)) :=
  ⟨by decide, by decide, ReserveSeat_twice sampleFlight 1 [2] (by decide) (by decide)⟩

/-- C9: a successful `BookSeat s` changes only the booked flag of seat `s`: all
Flight metadata, the seat count, every other seat entry, and seat `s`'s number
are unchanged, while seat `s`'s flag becomes `true`. -/
theorem ReserveSeat_frame (f : Flight) (s : Int)
    (h : (f.BookSeat s).snd = true) :
    (f.BookSeat s).fst.flightNumber = f.flightNumber
    ∧ (f.BookSeat s).fst.source = f.source
    ∧ (f.BookSeat s).fst.destination = f.destination
    ∧ (f.BookSeat s).fst.departure = f.departure
    ∧ (f.BookSeat s).fst.arrival = f.arrival
    ∧ (f.BookSeat s).fst.aircraft = f.aircraft
    ∧ (f.BookSeat s).fst.seats.length = f.seats.length
    ∧ (∀ i : Nat, i ≠ (s - 1).toNat → (f.BookSeat s).fst.seats.get? i = f.seats.get? i)
    ∧ ((f.BookSeat s).fst.seats.get? (s - 1).toNat).map Seat.seatNumber
        = (f.seats.get? (s - 1).toNat).map Seat.seatNumber
    ∧ (f.BookSeat s).fst.seatBooked s = some true := by
  obtain ⟨m1, m2, m3, m4, m5, m6⟩ := Flight.BookSeat_metadata f s
  exact ⟨m1, m2, m3, m4, m5, m6, Flight.BookSeat_seats_length f s,
    fun i hi => Flight.BookSeat_frame_other f s i hi,
    Flight.BookSeat_seatNumbers f s _,
    Flight.BookSeat_true_books f s h⟩

/-- Witness for C9: booking seat 2 of the sample flight leaves seat 1 alone. -/
theorem ReserveSeat_frame_witness :
    (sampleFlight.BookSeat 2).snd = true
    ∧ (sampleFlight.BookSeat 2).fst.seats.get? 0 = sampleFlight.seats.get? 0 :=
  ⟨by decide, ((ReserveSeat_frame sampleFlight 2 (by decide)).2.2.2.2.2.2.2.1) 0 (by decide)⟩

/-! ### Flight search -/

/-- The per-flight condition of `FlightSearch.SearchFlights`, read off the loop:
`flight.Source == source && flight.Destination == destination &&
flight.Departure.Year() == date.Year() && flight.Departure.Month() == date.Month() &&
flight.Departure.Day() == date.Day()`. -/
def flightMatches (source destination : String) (date : GoTime) (f : Flight) : Bool :=
  f.source == source && f.destination == destination
    && f.departure.year == date.year && f.departure.month == date.month
    && f.departure.day == date.day

/-- Source `type FlightSearch struct { flights []*Flight }`. -/
structure FlightSearch where
  flights : List Flight

/-- Source `func NewFlightSearch(flights []*Flight) *FlightSearch`. -/
def NewFlightSearch (flights : List Flight) : FlightSearch :=
  ⟨flights⟩

/-- The loop of `FlightSearch.SearchFlights`, with the `results` slice as an
explicit accumulator. -/
def searchLoop (flights : List Flight) (source destination : String) (date : GoTime)
    (results : List Flight) : List Flight :=
  match flights with
  | [] => results
  | f :: rest =>
    if flightMatches source destination date f
    then searchLoop rest source destination date (results ++ [f])
    else searchLoop rest source destination date results

/-- Source `func (fs *FlightSearch) SearchFlights(source, destination string, date time.Time) []*Flight`. -/
def FlightSearch.SearchFlights (fs : FlightSearch) (source destination : String)
    (date : GoTime) : List Flight :=
  searchLoop fs.flights source destination date []

theorem searchLoop_eq_filter (flights : List Flight) (src dst : String) (date : GoTime)
    (acc : List Flight) :
    searchLoop flights src dst date acc
      = acc ++ flights.filter (flightMatches src dst date) := by
  induction flights generalizing acc with
  | nil => simp [searchLoop]
  | cons f rest ih =>
    by_cases h : flightMatches src dst date f
    · simp [searchLoop, h, ih]
    · simp [searchLoop, h, ih]

/-- C6: `SearchFlights` returns exactly the flights whose source and destination
strings equal the query's and whose departure shares the query date's year,
month and day, in the insertion order of the underlying flight collection. -/
theorem SearchFlights_is_ordered_filter (flights : List Flight) (src dst : String)
    (date : GoTime) :
    (NewFlightSearch flights).SearchFlights src dst date
      = flights.filter (fun f => f.source == src && f.destination == dst
          && f.departure.year == date.year && f.departure.month == date.month
          && f.departure.day == date.day) := by
  show searchLoop flights src dst date [] = _
  rw [searchLoop_eq_filter]
  rfl

/-! ### The Facade -/

/-- Source `type AirlineManagementSystem struct { flights []*Flight; aircrafts []*Aircraft;
flightSearch *FlightSearch; bookingManager *BookingManager; paymentProcessor *PaymentProcessor; ... }`.

The `bookingManager` and `paymentProcessor` fields point at the process-wide
singletons, which are modelled separately (see `ProcessState` below), so only
the three collection-carrying fields appear here.  `NewAirlineManagementSystem`
runs `system.flightSearch = NewFlightSearch(system.flights)`: in Go this copies
the slice header of the then-empty `system.flights` (length 0) by value into
the searcher, and the later `ams.flights = append(ams.flights, flight)` in
`AddFlight` reassigns only `ams.flights`.  The searcher's captured list is
therefore a separate field that `AddFlight` leaves untouched. -/
structure AirlineManagementSystem where
  flights : List Flight
  aircrafts : List Aircraft
  flightSearch : FlightSearch

/-- Source `func NewAirlineManagementSystem() *AirlineManagementSystem`. -/
def NewAirlineManagementSystem : AirlineManagementSystem :=
  ⟨[], [], NewFlightSearch []⟩

/-- Source `func (ams *AirlineManagementSystem) AddFlight(flight *Flight)`:
`ams.flights = append(ams.flights, flight)`. -/
def AirlineManagementSystem.AddFlight (ams : AirlineManagementSystem)
    (flight : Flight) : AirlineManagementSystem :=
  ⟨ams.flights ++ [flight], ams.aircrafts, ams.flightSearch⟩

/-- Source `func (ams *AirlineManagementSystem) AddAircraft(aircraft *Aircraft)`:
`ams.aircrafts = append(ams.aircrafts, aircraft)`. -/
def AirlineManagementSystem.AddAircraft (ams : AirlineManagementSystem)
    (aircraft : Aircraft) : AirlineManagementSystem :=
  ⟨ams.flights, ams.aircrafts ++ [aircraft], ams.flightSearch⟩

/-- Source `func (ams *AirlineManagementSystem) SearchFlights(...)`:
`return ams.flightSearch.SearchFlights(source, destination, date)`. -/
def AirlineManagementSystem.SearchFlights (ams : AirlineManagementSystem)
    (source destination : String) (date : GoTime) : List Flight :=
  ams.flightSearch.SearchFlights source destination date

/-- A sequence of `AddFlight` calls on the Facade. -/
def applyAddFlights (ams : AirlineManagementSystem) (fl : List Flight) :
    AirlineManagementSystem :=
  fl.foldl AirlineManagementSystem.AddFlight ams

/-- C10: `AddFlight` appends to the flight collection and leaves the aircraft
collection unchanged; `AddAircraft` appends to the aircraft collection and
leaves the flight collection unchanged. -/
theorem AddFlight_AddAircraft_frame (ams : AirlineManagementSystem) (f : Flight)
    (a : Aircraft) :
    (ams.AddFlight f).flights = ams.flights ++ [f]
    ∧ (ams.AddFlight f).aircrafts = ams.aircrafts
    ∧ (ams.AddAircraft a).aircrafts = ams.aircrafts ++ [a]
    ∧ (ams.AddAircraft a).flights = ams.flights :=
  ⟨rfl, rfl, rfl, rfl⟩

/-- C3 (code bug): the Facade's `SearchFlights` consults the `FlightSearch`
captured at construction time, which holds the then-empty flight list; no
`AddFlight` call ever reaches it, so every Facade search returns `[]` — in
particular the spec's end-to-end query, even though the added flight satisfies
the search condition. -/
theorem SearchFlights_ignores_added_flights :
    (∀ (fl : List Flight) (src dst : String) (d : GoTime),
        (applyAddFlights NewAirlineManagementSystem fl).SearchFlights src dst d = [])
    ∧ flightMatches "SFO" "JFK" ⟨2024, 1, 1, 0⟩ sampleFlight = true
    ∧ (applyAddFlights NewAirlineManagementSystem [sampleFlight]).SearchFlights
        "SFO" "JFK" ⟨2024, 1, 1, 0⟩ = [] := by
  have hsearch : ∀ (fl : List Flight) (ams : AirlineManagementSystem),
      (applyAddFlights ams fl).flightSearch = ams.flightSearch := by
    intro fl
    induction fl with
    | nil => intro ams; rfl
    | cons f rest ih => intro ams; exact ih (ams.AddFlight f)
  have hmain : ∀ (fl : List Flight) (src dst : String) (d : GoTime),
      (applyAddFlights NewAirlineManagementSystem fl).SearchFlights src dst d = [] := by
    intro fl src dst d
    show (applyAddFlights NewAirlineManagementSystem fl).flightSearch.SearchFlights src dst d
        = []
    rw [hsearch]
    rfl
  exact ⟨hmain, by decide, hmain [sampleFlight] "SFO" "JFK" ⟨2024, 1, 1, 0⟩⟩

/-! ### Bookings and the Booking Store -/

/-- Source `type Passenger struct { PassengerID, Name, Email, Phone string }`. -/
structure Passenger where
  passengerID : String
  name : String
  email : String
  phone : String
deriving DecidableEq, Repr

/-- Source `func NewPassenger(passengerID, name, email, phone string) *Passenger`. -/
def NewPassenger (passengerID name email phone : String) : Passenger :=
  ⟨passengerID, name, email, phone⟩

/-- Source `type Booking struct { BookingID string; Flight *Flight; Passenger *Passenger;
SeatNumber int; BookingTime time.Time }`. -/
structure Booking where
  bookingID : String
  flight : Flight
  passenger : Passenger
  seatNumber : Int
  bookingTime : GoTime
deriving DecidableEq, Repr

/-- The `bookings map[string]*Booking` of `BookingManager`, as a total function
into `Option`: `none` models the nil pointer a Go map read returns for a
missing key. -/
def BookingMap := String → Option Booking

def emptyBookingMap : BookingMap := fun _ => none

/-- Source `func (bm *BookingManager) AddBooking(booking *Booking)`:
`bm.bookings[booking.BookingID] = booking` (map insert, overwriting). -/
def BookingMap.AddBooking (bm : BookingMap) (booking : Booking) : BookingMap :=
  fun key => if key = booking.bookingID then some booking else bm key

/-- Source `func (bm *BookingManager) GetBooking(bookingID string) *Booking`:
`return bm.bookings[bookingID]`; the `none` result is the nil pointer, a
not-found value rather than an error. -/
def BookingMap.GetBooking (bm : BookingMap) (bookingID : String) : Option Booking :=
  bm bookingID

/-- A sequence of `AddBooking` calls applied in order. -/
def applyAddBookings (bm : BookingMap) (bs : List Booking) : BookingMap :=
  bs.foldl BookingMap.AddBooking bm

theorem applyAddBookings_get (bm : BookingMap) (bs : List Booking) (bid : String) :
    (applyAddBookings bm bs).GetBooking bid
      = ((bs.filter (fun b => b.bookingID == bid)).getLast?).elim (bm bid) some := by
  induction bs using List.reverseRecOn with
  | nil => rfl
  | append_singleton bs b ih =>
    have hstep : applyAddBookings bm (bs ++ [b])
        = (applyAddBookings bm bs).AddBooking b := by
      simp [applyAddBookings, List.foldl_append]
    by_cases hb : b.bookingID = bid
    · have : (bs ++ [b]).filter (fun b => b.bookingID == bid)
          = bs.filter (fun b => b.bookingID == bid) ++ [b] := by
        simp [List.filter_append, hb]
      rw [hstep, this, List.getLast?_concat]
      show (if bid = b.bookingID then some b else (applyAddBookings bm bs) bid) = some b
      rw [if_pos hb.symm]
    · have : (bs ++ [b]).filter (fun b => b.bookingID == bid)
          = bs.filter (fun b => b.bookingID == bid) := by
        simp [List.filter_append, hb]
      rw [hstep, this]
      show (if bid = b.bookingID then some b else (applyAddBookings bm bs) bid)
          = ((bs.filter (fun b => b.bookingID == bid)).getLast?).elim (bm bid) some
      rw [if_neg (fun hx => hb hx.symm)]
      exact ih

/-- C7: starting from the empty store, `GetBooking bid` returns exactly the most
recently added booking whose id is `bid` (last write wins), and `none` — a
not-found value, not an error — when no booking was ever added under `bid`. -/
theorem GetBooking_last_write (bs : List Booking) (bid : String) :
    (applyAddBookings emptyBookingMap bs).GetBooking bid
      = (bs.filter (fun b => b.bookingID == bid)).getLast? := by
  rw [applyAddBookings_get]
  cases (bs.filter (fun b => b.bookingID == bid)).getLast? <;> rfl

/-! ### The process-wide store singletons

`GetBookingManager` and `GetPaymentProcessor` each guard a package-level
variable with a `sync.Once`: the first call constructs the store and records
it, every call returns the recorded pointer.  `ProcessState` carries the two
package-level variables; pointer identity is modelled by an allocation counter,
so two stores constructed by different calls would receive different tokens. -/

/-- The package-level variables `bookingManagerInstance` and
`paymentProcessorInstance` (with their `sync.Once` guards folded into the
`Option`), plus a fresh-pointer counter. -/
structure ProcessState where
  bookingManagerInstance : Option Nat
  paymentProcessorInstance : Option Nat
  nextAlloc : Nat
deriving DecidableEq, Repr

/-- Process start: neither singleton constructed yet. -/
def initialProcessState : ProcessState := ⟨none, none, 0⟩

/-- Source `func GetBookingManager() *BookingManager`: `onceBookingManager.Do(...)`,
then `return bookingManagerInstance`. -/
def GetBookingManager (s : ProcessState) : ProcessState × Nat :=
  match s.bookingManagerInstance with
  | some v => (s, v)
  | none => (⟨some s.nextAlloc, s.paymentProcessorInstance, s.nextAlloc + 1⟩, s.nextAlloc)

/-- Source `func GetPaymentProcessor() *PaymentProcessor`: `oncePaymentProcessor.Do(...)`,
then `return paymentProcessorInstance`. -/
def GetPaymentProcessor (s : ProcessState) : ProcessState × Nat :=
  match s.paymentProcessorInstance with
  | some v => (s, v)
  | none => (⟨s.bookingManagerInstance, some s.nextAlloc, s.nextAlloc + 1⟩, s.nextAlloc)

/-- Which accessor a caller invokes. -/
inductive StoreCall where
  | bookingStore
  | paymentStore
deriving DecidableEq, Repr

def stepCall (s : ProcessState) : StoreCall → ProcessState × Nat
  | .bookingStore => GetBookingManager s
  | .paymentStore => GetPaymentProcessor s

/-- Run a sequence of accessor calls, returning the final state and the trace of
(call, returned instance) pairs in order. -/
def runCalls (s : ProcessState) : List StoreCall → ProcessState × List (StoreCall × Nat)
  | [] => (s, [])
  | c :: cs =>
    let step := stepCall s c
    let rest := runCalls step.fst cs
    (rest.fst, (c, step.snd) :: rest.snd)

/-- The instances returned by the calls to one accessor, in call order. -/
def resultsFor (c : StoreCall) (trace : List (StoreCall × Nat)) : List Nat :=
  (trace.filter (fun p => p.fst == c)).map Prod.snd

/-- The package-level variable the accessor `c` guards. -/
def instOf (s : ProcessState) : StoreCall → Option Nat
  | .bookingStore => s.bookingManagerInstance
  | .paymentStore => s.paymentProcessorInstance

theorem stepCall_preserves (s : ProcessState) (c c' : StoreCall) (v : Nat)
    (h : instOf s c = some v) : instOf (stepCall s c').fst c = some v := by
  cases c' <;> cases c <;>
    simp only [stepCall, GetBookingManager, GetPaymentProcessor, instOf] at h ⊢ <;>
    split <;> simp_all [instOf]

theorem stepCall_records (s : ProcessState) (c : StoreCall) :
    instOf (stepCall s c).fst c = some (stepCall s c).snd := by
  cases c <;>
    simp only [stepCall, GetBookingManager, GetPaymentProcessor] <;>
    split <;> simp_all [instOf]

theorem runCalls_preserves (s : ProcessState) (cs : List StoreCall) (c : StoreCall)
    (v : Nat) (h : instOf s c = some v) : instOf (runCalls s cs).fst c = some v := by
  induction cs generalizing s with
  | nil => exact h
  | cons c' rest ih => exact ih _ (stepCall_preserves s c c' v h)

theorem mem_resultsFor (c : StoreCall) (trace : List (StoreCall × Nat)) (r : Nat)
    (h : r ∈ resultsFor c trace) : (c, r) ∈ trace := by
  simp only [resultsFor, List.mem_map, List.mem_filter] at h
  obtain ⟨⟨pc, pr⟩, ⟨hp, hpc⟩, hpr⟩ := h
  simp only [beq_iff_eq] at hpc
  have hpr' : pr = r := hpr
  subst hpc
  subst hpr'
  exact hp

theorem runCalls_trace (s : ProcessState) (cs : List StoreCall) (c : StoreCall)
    (r : Nat) (hr : (c, r) ∈ (runCalls s cs).snd) :
    instOf (runCalls s cs).fst c = some r := by
  induction cs generalizing s with
  | nil => simp [runCalls] at hr
  | cons c' rest ih =>
    simp only [runCalls, List.mem_cons] at hr ⊢
    rcases hr with hhead | htail
    · obtain ⟨h1, h2⟩ := Prod.mk.injEq .. |>.mp hhead
      subst h1
      subst h2
      exact runCalls_preserves _ rest c _ (stepCall_records s c)
    · exact ih _ htail

/-- C8: within one process run (any sequence of accessor calls starting from
process start), any two calls of the same store accessor return the same
instance: the Booking Store is a singleton, and so is the Payment Store. -/
theorem store_singletons (cs : List StoreCall) (c : StoreCall) (r1 r2 : Nat)
    (h1 : r1 ∈ resultsFor c (runCalls initialProcessState cs).snd)
    (h2 : r2 ∈ resultsFor c (runCalls initialProcessState cs).snd) :
    r1 = r2 := by
  have e1 := runCalls_trace initialProcessState cs c r1 (mem_resultsFor c _ r1 h1)
  have e2 := runCalls_trace initialProcessState cs c r2 (mem_resultsFor c _ r2 h2)
  rw [e1] at e2
  exact Option.some_inj.mp e2

/-- Witness for C8: in the call sequence booking, payment, booking, the first and
third calls both return instance 0. -/
theorem store_singletons_witness :
    0 ∈ resultsFor .bookingStore
        (runCalls initialProcessState [.bookingStore, .paymentStore, .bookingStore]).snd
    ∧ (0 : Nat) = 0 :=
  ⟨by decide,
   store_singletons [.bookingStore, .paymentStore, .bookingStore] .bookingStore 0 0
     (by decide) (by decide)⟩

/-! ### The unsynchronized check-then-set of `Flight.BookSeat`

`Flight.BookSeat` takes no lock and uses no atomic operation, so with respect
to a concurrent `BookSeat` call on the same Flight its read of the booked flag
and its later write are two separate steps; the Go memory model permits another
call's steps to run between them.  The two phases below split the method at
that point; `BookSeat_eq_phases` checks the split against the method itself. -/

/-- Phase 1 of `Flight.BookSeat`: the range check and the read
`f.Seats[seatNumber-1].IsBooked`.  `none` records the out-of-range early
return, `some b` the flag value read. -/
def Flight.BookSeatObserve (f : Flight) (seatNumber : Int) : Option Bool :=
  if seatNumber < 1 ∨ seatNumber > (f.seats.length : Int) then none
  else (f.seats.get? (seatNumber - 1).toNat).map Seat.isBooked

/-- Phase 2 of `Flight.BookSeat`: the remainder of the call, driven by the flag
value phase 1 observed — return `false`, or perform the write
`f.Seats[seatNumber-1].IsBooked = true` and return `true`. -/
def Flight.BookSeatComplete (f : Flight) (seatNumber : Int) :
    Option Bool → Flight × Bool
  | none => (f, false)
  | some true => (f, false)
  | some false =>
    match f.seats.get? (seatNumber - 1).toNat with
    | none => (f, false)
    | some seat =>
      (⟨f.flightNumber, f.source, f.destination, f.departure, f.arrival, f.aircraft,
        f.seats.set (seatNumber - 1).toNat ⟨seat.seatNumber, true⟩⟩, true)

/-- Run sequentially (phase 2 right after phase 1 on the same state), the two
phases are exactly `Flight.BookSeat`. -/
theorem BookSeat_eq_phases (f : Flight) (s : Int) :
    f.BookSeat s = f.BookSeatComplete s (f.BookSeatObserve s) := by
  unfold Flight.BookSeat Flight.BookSeatObserve Flight.BookSeatComplete
  split
  · rfl
  · cases hg : f.seats.get? (s - 1).toNat with
    | none => simp [hg]
    | some seat =>
      cases hb : seat.isBooked <;> simp [hg, hb]

/-- The interleaving read₁, read₂, write₁, write₂ of two concurrent `BookSeat`
calls on one Flight: both phase-1 reads happen against the initial state, then
both phase-2 completions run.  Returns the final Flight and the two calls'
results. -/
def racyBookSeatPair (f : Flight) (s1 s2 : Int) : Flight × Bool × Bool :=
  let o1 := f.BookSeatObserve s1
  let o2 := f.BookSeatObserve s2
  let r1 := f.BookSeatComplete s1 o1
  let r2 := r1.fst.BookSeatComplete s2 o2
  (r2.fst, r1.snd, r2.snd)

/-- A fresh one-seat flight. -/
def oneSeatFlight : Flight :=
  NewFlight "AA9" "SFO" "JFK" sampleDeparture sampleArrival (NewAircraft "N2" "B737" 1)

/-- C1 (code bug): the check and the mutation of `Flight.BookSeat` are separate
steps (phases 1 and 2, proved equal to the method when run back to back), and
under the unlocked interleaving read₁, read₂, write₁, write₂ two concurrent
`BookSeat 1` calls on a fresh one-seat flight BOTH return `true`: two successes
for N = 1 seats, the same seat reported reserved by both calls. -/
theorem ReserveSeat_race_double_success :
    (∀ (f : Flight) (s : Int), f.BookSeat s = f.BookSeatComplete s (f.BookSeatObserve s))
    ∧ oneSeatFlight.seats.length = 1
    ∧ (racyBookSeatPair oneSeatFlight 1 1).snd = (true, true) :=
  ⟨BookSeat_eq_phases, by decide, by decide⟩
